import Mathlib

/-!
Verification of the nodejs-ercaspay payment-gateway SDK against its
specification.  The JavaScript source is embedded shallowly: each JS
function that a claim mentions becomes a Lean definition over explicit
data (strings as `List Char`, bytes as `Nat` lists, JS `undefined` as
`Option`, thrown errors as `Except`).  Library calls that the SDK makes
(Node `crypto.publicEncrypt`, `fs`, axios transport) are modelled by
their documented behaviour and passed in as explicit parameters where
they are ambient in JS.
-/

set_option autoImplicit false
set_option maxRecDepth 4000

namespace ErcaspaySdk

/-! ## JavaScript string primitives -/

/-- Characters treated as whitespace by JavaScript `String.prototype.trim`
(the ASCII ones that can occur in PEM files). -/
def jsWhitespace (c : Char) : Bool :=
  c == ' ' || c == '\t' || c == '\n' || c == '\r' || c == '\x0b' || c == '\x0c'

/-- JS `String.prototype.trim` on an explicit character list. -/
def trimChars (s : List Char) : List Char :=
  ((s.dropWhile jsWhitespace).reverse.dropWhile jsWhitespace).reverse

/-- JS `String.prototype.replace(pat, repl)` with a *string* pattern:
replaces only the first occurrence of `pat`, or leaves the string
unchanged when `pat` does not occur. -/
def replaceFirst (pat repl : List Char) : List Char → List Char
  | [] => if pat.isPrefixOf ([] : List Char) then repl else []
  | c :: rest =>
    if pat.isPrefixOf (c :: rest) then repl ++ (c :: rest).drop pat.length
    else c :: replaceFirst pat repl rest

/-- Whether `pat` occurs as a contiguous substring of the list. -/
def listContainsSub (pat : List Char) : List Char → Bool
  | [] => pat.isPrefixOf ([] : List Char)
  | c :: rest => pat.isPrefixOf (c :: rest) || listContainsSub pat rest

/-- The key-text normalization performed by `CardEncryptor.encrypt`
(src `publicKey.replace('RSA', '').trim()`): drop the first occurrence
of the substring `RSA`, then trim surrounding whitespace. -/
def normalizeKeyText (s : String) : String :=
  String.mk (trimChars (replaceFirst "RSA".data "".data s.data))

/-! ## JSON serialization (`JSON.stringify` on the card-fields object) -/

/-- Lowercase hexadecimal digit, used by the `\u00XX` escape. -/
def hexDigit (n : Nat) : Char :=
  "0123456789abcdef".data.getD n '0'

/-- Escaping of one character inside a JSON string literal, following the
ECMAScript `QuoteJSONString` algorithm for BMP characters. -/
def jsonEscapeChar (c : Char) : List Char :=
  if c = '"' then ['\\', '"']
  else if c = '\\' then ['\\', '\\']
  else if c = '\x08' then ['\\', 'b']
  else if c = '\t' then ['\\', 't']
  else if c = '\n' then ['\\', 'n']
  else if c = '\x0c' then ['\\', 'f']
  else if c = '\r' then ['\\', 'r']
  else if c.toNat < 32 then
    ['\\', 'u', '0', '0', hexDigit (c.toNat / 16), hexDigit (c.toNat % 16)]
  else [c]

/-- A JSON string literal: quoted and escaped. -/
def jsonQuote (s : String) : List Char :=
  '"' :: (s.data.map jsonEscapeChar).flatten ++ ['"']

/-- The card record passed to `CardEncryptor.encrypt` by
`initiateCardTransaction`.  A JS property can be `undefined` (absent), so
every field is an `Option`. -/
structure CardFields where
  cvv : Option String
  pin : Option String
  expiryDate : Option String
  pan : Option String
deriving DecidableEq

/-- One `name: value` member of the stringified object; `JSON.stringify`
omits properties whose value is `undefined`. -/
def jsonMember (name : String) (v : Option String) : List (List Char) :=
  match v with
  | none => []
  | some s => [jsonQuote name ++ ':' :: jsonQuote s]

/-- `JSON.stringify(cardParams)` for the object literal
`\x7b cvv, pin, expiryDate, pan \x7d` built by `initiateCardTransaction`
(property insertion order `cvv, pin, expiryDate, pan`). -/
def jsonStringifyCard (card : CardFields) : List Char :=
  '\x7b' ::
    (List.intercalate [',']
      (jsonMember "cvv" card.cvv ++ jsonMember "pin" card.pin ++
        jsonMember "expiryDate" card.expiryDate ++ jsonMember "pan" card.pan)) ++
    ['\x7d']

/-- UTF-8 encoding of one character (`Buffer.from(str)` uses UTF-8). -/
def utf8Char (c : Char) : List Nat :=
  let n := c.toNat
  if n < 128 then [n]
  else if n < 2048 then [192 + n / 64, 128 + n % 64]
  else if n < 65536 then [224 + n / 4096, 128 + n / 64 % 64, 128 + n % 64]
  else [240 + n / 262144, 128 + n / 4096 % 64, 128 + n / 64 % 64, 128 + n % 64]

/-- UTF-8 bytes of a character list. -/
def utf8Bytes (s : List Char) : List Nat :=
  (s.map utf8Char).flatten

/-! ## Base64 (`Buffer.prototype.toString('base64')`, standard alphabet) -/

/-- The standard (non-URL-safe) base64 alphabet. -/
def b64Alphabet : List Char :=
  "ABCDEFGHIJKLMNOPQRSTUVWXYZabcdefghijklmnopqrstuvwxyz0123456789+/".data

/-- The base64 digit for a 6-bit value. -/
def b64char (n : Nat) : Char :=
  b64Alphabet.getD (n % 64) 'A'

/-- Membership in the claim's alphabet `[A-Za-z0-9+/=]`. -/
def isB64Char (c : Char) : Bool :=
  b64Alphabet.contains c || c == '='

/-- Standard base64 encoding of a byte list, with `=` padding. -/
def base64Encode : List Nat → List Char
  | [] => []
  | [b1] => [b64char (b1 / 4), b64char (b1 % 4 * 16), '=', '=']
  | [b1, b2] => [b64char (b1 / 4), b64char (b1 % 4 * 16 + b2 / 16), b64char (b2 % 16 * 4), '=']
  | b1 :: b2 :: b3 :: rest =>
      b64char (b1 / 4) :: b64char (b1 % 4 * 16 + b2 / 16) ::
        b64char (b2 % 16 * 4 + b3 / 64) :: b64char (b3 % 64) :: base64Encode rest

/-! ## RSA PKCS#1 v1.5 encryption (`crypto.publicEncrypt` with
`RSA_PKCS1_PADDING`), modelled from the standard the library implements -/

/-- Fuel-driven count of base-256 digits; total, structurally recursive
(hence reducible in the kernel) and, once the fuel dominates the argument,
equal to the octet length `floor(log256 n) + 1`. -/
def byteLenFuel : Nat → Nat → Nat
  | 0, _ => 0
  | fuel + 1, n => if n = 0 then 0 else byteLenFuel fuel (n / 256) + 1

/-- Octet length `k` of the RSA modulus. -/
def rsaByteLen (n : Nat) : Nat :=
  byteLenFuel n n

/-- Big-endian bytes-to-integer (`OS2IP`). -/
def bytesToNatBE (bs : List Nat) : Nat :=
  bs.foldl (fun acc b => acc * 256 + b) 0

/-- Integer-to-bytes, big-endian, fixed width `k` (`I2OSP`). -/
def natToBytesBE : Nat → Nat → List Nat
  | 0, _ => []
  | k + 1, c => natToBytesBE k (c / 256) ++ [c % 256]

/-- PKCS#1 v1.5 type-2 encryption block `00 02 PS 00 D`; the library fails
(throws, observed by the SDK as the catch branch) when the data does not
leave room for the mandated 8 random pad bytes, i.e. when
`|D| > k - 11`.  `ps` stands for the random nonzero pad bytes the library
draws. -/
def pkcs1v15Pad (k : Nat) (ps data : List Nat) : Option (List Nat) :=
  if data.length + 11 ≤ k then some (0 :: 2 :: ps ++ 0 :: data) else none

/-- `crypto.publicEncrypt` with PKCS#1 v1.5 padding: pad, exponentiate mod
`n`, serialize to `k` octets. -/
def publicEncryptPkcs1 (n e : Nat) (ps data : List Nat) : Option (List Nat) :=
  match pkcs1v15Pad (rsaByteLen n) ps data with
  | none => none
  | some eb => some (natToBytesBE (rsaByteLen n) (bytesToNatBE eb ^ e % n))

/-! ## CardEncryptor -/

/-- The errors `CardEncryptor` can throw. -/
inductive CardEncError where
  | keyNotFound (path : String)
  | keyReadError (path : String)
  | encryptionError
deriving DecidableEq

/-- `Except.isOk` specialized to the encryptor's result. -/
def exceptIsOk (r : Except CardEncError String) : Bool :=
  match r with
  | .ok _ => true
  | .error _ => false

/-- A constructed `CardEncryptor` instance stores only the key path. -/
structure CardEncryptor where
  publicKeyPath : String
deriving DecidableEq

/-- The `CardEncryptor` constructor: throws "Public key file not found"
when `fs.existsSync` is false, else stores the path.  The filesystem is
passed in as the existence predicate `fsExists`. -/
def CardEncryptor.create (fsExists : String → Bool) (path : String) :
    Except CardEncError CardEncryptor :=
  if fsExists path then .ok ⟨path⟩ else .error (.keyNotFound path)

/-- `CardEncryptor.encrypt`: read the key file (`readFile`, none = throw of
`fs.readFileSync` caught and rethrown as the key-read error), normalize the
key text, `JSON.stringify` the card record, UTF-8 encode, call
`crypto.publicEncrypt` (its key-import step abstracted as `importKey` on the
normalized text; any throw inside the try block — bad key or
message-too-long — becomes the catch-all encryption error), and return the
base64 ciphertext. -/
def CardEncryptor.encrypt (readFile : String → Option String)
    (importKey : String → Option (Nat × Nat)) (ps : List Nat)
    (enc : CardEncryptor) (card : CardFields) : Except CardEncError String :=
  match readFile enc.publicKeyPath with
  | none => .error (.keyReadError enc.publicKeyPath)
  | some txt =>
    match importKey (normalizeKeyText txt) with
    | none => .error .encryptionError
    | some (n, e) =>
      match publicEncryptPkcs1 n e ps (utf8Bytes (jsonStringifyCard card)) with
      | none => .error .encryptionError
      | some ct => .ok (String.mk (base64Encode ct))

/-! ## Device / BrowserDetails DTOs -/

/-- An inbound web request as the DTO factories see it: the `ip` property,
a header map, and the legacy `connection` object (`none` when the property
is absent; `some r` carries `connection.remoteAddress`). -/
structure JsRequest where
  ip : Option String
  headers : String → Option String
  connection : Option (Option String)

/-- JS truthiness of a possibly-undefined string value (`undefined` and the
empty string are falsy). -/
def jsTruthy : Option String → Bool
  | none => false
  | some s => s != ""

/-- JS `a || b` where `a` is a possibly-undefined string. -/
def jsOr (a b : Option String) : Option String :=
  if jsTruthy a then a else b

/-- JS `a || b` with a string default on the right. -/
def jsOrStr (a : Option String) (b : String) : String :=
  match a with
  | some s => if s != "" then s else b
  | none => b

/-- The BrowserDetails record (src/Types/BrowserDetails.js): fixed defaults,
with acceptHeaders sourced from the accept header. -/
structure BrowserDetails where
  challengeWindowSize : String
  acceptHeaders : String
  colorDepth : Nat
  javaEnabled : Bool
  language : String
  screenHeight : Nat
  screenWidth : Nat
  timeZone : Nat
deriving DecidableEq

/-- `BrowserDetails.fromRequest` of src/Types/BrowserDetails.js. -/
def BrowserDetails.fromRequest (request : JsRequest) : BrowserDetails :=
  { challengeWindowSize := "FULL_SCREEN"
    acceptHeaders := jsOrStr (request.headers "accept") "application/json"
    colorDepth := 24
    javaEnabled := true
    language := "en-US"
    screenHeight := 473
    screenWidth := 1600
    timeZone := 273 }

/-- A Device record.  The constructor destructures `browser`, so a factory
that passes no `browser` key produces an undefined (`none`) browser. -/
structure Device where
  browser : Option String
  browserDetails : BrowserDetails
  ipAddress : String
deriving DecidableEq

/-- The IP resolution chain of the first Device implementation:
`request.ip || request.headers[x-forwarded-for] || 127.0.0.1`. -/
def resolvedIpV1 (request : JsRequest) : String :=
  jsOrStr (jsOr request.ip (request.headers "x-forwarded-for")) "127.0.0.1"

/-- `Device.fromRequest`, first implementation: resolves the IP, strips a
leading IPv6-mapped-IPv4 marker (`ip.substr(0,7) == ::ffff:` then
`ip.substr(7)`), and fills `browser` from the user-agent header with the
Unknown fallback. -/
def Device.fromRequest (request : JsRequest) : Device :=
  let ip0 := resolvedIpV1 request
  let ip := if ip0.take 7 == "::ffff:" then ip0.drop 7 else ip0
  { browser := some (jsOrStr (request.headers "user-agent") "Unknown")
    browserDetails := BrowserDetails.fromRequest request
    ipAddress := ip }

/-- `Device.fromRequest`, second implementation: resolves
`request.ip || request.connection.remoteAddress || 127.0.0.1` with no
prefix stripping (a missing `connection` object is a TypeError when `ip` is
falsy), computes the user-agent fallback but then passes it under the key
`userAgent`, so the constructed record's `browser` field is undefined. -/
def DeviceV2.fromRequest (request : JsRequest) : Except String Device :=
  if jsTruthy request.ip then
    .ok { browser := none
          browserDetails := BrowserDetails.fromRequest request
          ipAddress := request.ip.getD "" }
  else
    match request.connection with
    | none => .error "TypeError: request.connection is undefined"
    | some remote =>
        .ok { browser := none
              browserDetails := BrowserDetails.fromRequest request
              ipAddress := jsOrStr remote "127.0.0.1" }

/-! ## Gateway client dispatch (`ErcasPay.#makeRequest`) -/

/-- The body of an HTTP error response; only `errorMessage` is inspected by
the client, the rest is carried opaquely. -/
structure RespBody where
  errorMessage : Option String
  raw : String
deriving DecidableEq

/-- Outcome of one axios call: a 2xx response with data, a non-2xx response
(`error.response` present, with status and body), or a transport failure
with no response at all (DNS, connect, timeout). -/
inductive HttpOutcome where
  | success (data : String)
  | errorResponse (status : Nat) (body : RespBody)
  | transportError (message : String)
deriving DecidableEq

/-- A thrown JS `Error` object: its message plus the `statusCode` and
`responseData` properties that the part_001 client attaches (`none` models
an absent/undefined or null property, as on a plain `Error`). -/
structure JsError where
  message : String
  statusCode : Option Nat
  responseData : Option RespBody
deriving DecidableEq

/-- The error thrown on an empty or undefined HTTP verb. -/
def methodEmptyError : JsError :=
  ⟨"Method cannot be empty", none, none⟩

/-- `ErcasPay.#makeRequest`, part_000 variant: guard the verb, dispatch via
the axios client (`transport`), return the response data; a caught axios
error is rethrown as a plain `Error` carrying only a message.  The second
component records whether the HTTP client was invoked. -/
def makeRequestV0 (transport : String → String → String → HttpOutcome)
    (relativeUrl : String) (method : Option String) (data : String) :
    Except JsError String × Bool :=
  if jsTruthy method then
    match transport relativeUrl ((method.getD "").toLower) data with
    | .success d => (.ok d, true)
    | .errorResponse _ body =>
        (.error ⟨jsOrStr body.errorMessage
          ("An error occurred while calling the Ercaspay API on path: " ++ relativeUrl),
          none, none⟩, true)
    | .transportError msg =>
        (.error ⟨jsOrStr (some msg)
          ("An unexpected error occurred while making the API request on path: "
            ++ relativeUrl),
          none, none⟩, true)
  else (.error methodEmptyError, false)

/-- `ErcasPay.#makeRequest`, part_001 variant: same control flow, but the
rethrown error additionally carries `statusCode` and `responseData` — the
response status and body when a response exists, a synthesized 500 and null
body on a transport failure. -/
def makeRequestV1 (transport : String → String → String → HttpOutcome)
    (relativeUrl : String) (method : Option String) (data : String) :
    Except JsError String × Bool :=
  if jsTruthy method then
    match transport relativeUrl ((method.getD "").toLower) data with
    | .success d => (.ok d, true)
    | .errorResponse status body =>
        (.error ⟨jsOrStr body.errorMessage
          ("An error occurred while calling the Ercaspay API on path: " ++ relativeUrl),
          some status, some body⟩, true)
    | .transportError msg =>
        (.error ⟨jsOrStr (some msg)
          ("An unexpected error occurred while making the API request on path: "
            ++ relativeUrl),
          some 500, none⟩, true)
  else (.error methodEmptyError, false)

/-! ## ErcasPay client construction (part_000, the verifySsl variant) -/

/-- Identifiers bound at module scope of the verifySsl-variant client file:
its four require results.  `https` is not among them. -/
def moduleScopeV0 : List String :=
  ["axios", "winston", "CardEncryptor", "PayerDeviceDto"]

/-- The JS errors client construction can raise. -/
inductive InitError where
  | referenceError (ident : String)
deriving DecidableEq

/-- The axios client produced by `#initializeClient`: base URL, the three
fixed headers, and the https agent (`none` = default SSL behaviour). -/
structure AxiosClient where
  baseURL : String
  authHeader : String
  acceptHeader : String
  contentTypeHeader : String
  agentRejectUnauthorized : Option Bool
deriving DecidableEq

/-- `ErcasPay.#initializeClient`: with `verifySsl` true the agent is left
undefined; with `verifySsl` false the code evaluates `new https.Agent(...)`,
and resolving the free identifier `https` against the module scope fails,
raising a ReferenceError. -/
def initializeClientV0 (baseURL secretKey : String) (verifySsl : Bool) :
    Except InitError AxiosClient :=
  if verifySsl then
    .ok ⟨baseURL, "Bearer " ++ secretKey, "application/json", "application/json", none⟩
  else if moduleScopeV0.contains "https" then
    .ok ⟨baseURL, "Bearer " ++ secretKey, "application/json", "application/json",
      some false⟩
  else
    .error (.referenceError "https")

/-- The client state after a successful construction. -/
structure ErcasPayState where
  baseURL : String
  secretKey : String
  verifySsl : Bool
  client : AxiosClient
deriving DecidableEq

/-- The `ErcasPay` constructor of the part_000 variant: stores the config and
immediately calls `#initializeClient`; `verifySsl` defaults to true when the
option is omitted (`none`). -/
def ercaspayNewV0 (baseURL secretKey : String) (verifySsl : Option Bool) :
    Except InitError ErcasPayState :=
  let v := verifySsl.getD true
  match initializeClientV0 baseURL secretKey v with
  | .error err => .error err
  | .ok client => .ok ⟨baseURL, secretKey, v, client⟩

/-! ## Concrete test fixtures -/

/-- A 2048-bit test modulus (any odd value in `[2^2047, 2^2048)`). -/
def testModulus : Nat :=
  2 ^ 2047 + 2047

/-- A generic-form PEM text fixture. -/
def testPem : String :=
  "-----BEGIN PUBLIC KEY-----\nTUlJ\n-----END PUBLIC KEY-----"

/-- The well-formed card record from the spec's end-to-end scenario. -/
def testCard : CardFields :=
  ⟨some "123", some "1234", some "1225", some "4111111111111111"⟩

/-- Correctly sized random-pad fixture for a 256-octet modulus: the library
draws `k - 3 - |D|` nonzero bytes. -/
def padFor (card : CardFields) : List Nat :=
  List.replicate (253 - (utf8Bytes (jsonStringifyCard card)).length) 1

/-- A card record with an empty `cvv` and an absent `pin`. -/
def emptyFieldCard : CardFields :=
  ⟨some "", none, some "1225", some "4111111111111111"⟩

/-- A card record whose JSON serialization is 200 bytes: over 190, under the
PKCS#1 v1.5 limit of 245 for a 256-octet modulus. -/
def midSizeCard : CardFields :=
  ⟨some "123", some "1234", some "1225", some (String.mk (List.replicate 145 '4'))⟩

/-- A card record whose JSON serialization exceeds 245 bytes. -/
def oversizeCard : CardFields :=
  ⟨some "123", some "1234", some "1225", some (String.mk (List.replicate 300 '4'))⟩

/-- A request whose IP carries the IPv6-mapped-IPv4 marker. -/
def mappedIpRequest : JsRequest :=
  ⟨some "::ffff:203.0.113.5", fun _ => none, some (some "10.0.0.1")⟩

/-- A request with a plain IP and a user-agent header. -/
def browserRequest : JsRequest :=
  ⟨some "8.8.8.8", fun h => if h == "user-agent" then some "Mozilla/5.0" else none,
    some (some "9.9.9.9")⟩

/-- A request with no IP, no headers and no connection object. -/
def emptyRequest : JsRequest :=
  ⟨none, fun _ => none, none⟩

end ErcaspaySdk

namespace ErcaspaySdk

/-! ## Theorems -/

theorem replaceFirst_of_not_contains (pat repl : List Char) :
    ∀ s : List Char, listContainsSub pat s = false → replaceFirst pat repl s = s
  | [], h => by
      simp only [listContainsSub] at h
      simp [replaceFirst, h]
  | c :: rest, h => by
      simp only [listContainsSub, Bool.or_eq_false_iff] at h
      simp [replaceFirst, h.1, replaceFirst_of_not_contains pat repl rest h.2]

/-- **C3 (counterexample).** `CardEncryptor.encrypt` does *not* normalize an
RSA-marked PEM to the generic public-key form: on a
`-----BEGIN RSA PUBLIC KEY-----` input the result differs from the generic
form, still contains the substring `RSA` (in the footer), and does not even
begin with the generic header. -/
theorem c3_counterexample :
    normalizeKeyText
        "-----BEGIN RSA PUBLIC KEY-----\nTUlJ\n-----END RSA PUBLIC KEY-----" ≠
      "-----BEGIN PUBLIC KEY-----\nTUlJ\n-----END PUBLIC KEY-----" ∧
    listContainsSub "RSA".data
        (normalizeKeyText
          "-----BEGIN RSA PUBLIC KEY-----\nTUlJ\n-----END RSA PUBLIC KEY-----").data
      = true ∧
    "-----BEGIN PUBLIC KEY-----".data.isPrefixOf
        (normalizeKeyText
          "-----BEGIN RSA PUBLIC KEY-----\nTUlJ\n-----END RSA PUBLIC KEY-----").data
      = false := by
  refine ⟨?_, by decide, by decide⟩
  decide

/-- **C3 (amended).** The normalization removes only the *first* occurrence of
the substring `RSA` and trims whitespace: a trimmed key text containing no
`RSA` substring (in particular a generic-header PEM) passes through unchanged,
while a text starting with the RSA-marked header becomes
`-----BEGIN  PUBLIC KEY-----` (doubled space) with the remainder — footer
marker included — untouched by the replacement. -/
theorem c3_amended (s rest : List Char)
    (h1 : listContainsSub "RSA".data s = false)
    (h2 : trimChars s = s) :
    normalizeKeyText (String.mk s) = String.mk s ∧
    replaceFirst "RSA".data [] ("-----BEGIN RSA PUBLIC KEY-----".data ++ rest) =
      "-----BEGIN  PUBLIC KEY-----".data ++ rest := by
  constructor
  · simp [normalizeKeyText, replaceFirst_of_not_contains _ _ _ h1, h2]
  · rfl

/-- Witness for `c3_amended` at a concrete generic-form PEM text. -/
theorem string_mk_length (l : List Char) : (String.mk l).length = l.length :=
  rfl

theorem natToBytesBE_length : ∀ k c : Nat, (natToBytesBE k c).length = k
  | 0, _ => rfl
  | k + 1, c => by simp [natToBytesBE, natToBytesBE_length k (c / 256)]

theorem b64char_isB64 (n : Nat) : isB64Char (b64char n) = true := by
  have h : ∀ m, m < 64 → isB64Char (b64Alphabet.getD m 'A') = true := by decide
  exact h (n % 64) (Nat.mod_lt _ (by decide))

theorem base64Encode_length :
    ∀ l : List Nat, (base64Encode l).length = 4 * ((l.length + 2) / 3)
  | [] => rfl
  | [_] => by simp [base64Encode]
  | [_, _] => by simp [base64Encode]
  | _ :: _ :: _ :: rest => by
      simp only [base64Encode, List.length_cons, base64Encode_length rest]
      omega

theorem base64Encode_mem :
    ∀ (l : List Nat) (c : Char), c ∈ base64Encode l → isB64Char c = true
  | [], _, h => by simp [base64Encode] at h
  | [b1], c, h => by
      simp only [base64Encode, List.mem_cons, List.not_mem_nil, or_false] at h
      rcases h with h | h | h | h <;> subst h <;>
        first | exact b64char_isB64 _ | decide
  | [b1, b2], c, h => by
      simp only [base64Encode, List.mem_cons, List.not_mem_nil, or_false] at h
      rcases h with h | h | h | h <;> subst h <;>
        first | exact b64char_isB64 _ | decide
  | b1 :: b2 :: b3 :: rest, c, h => by
      simp only [base64Encode, List.mem_cons] at h
      rcases h with h | h | h | h | h
      · subst h; exact b64char_isB64 _
      · subst h; exact b64char_isB64 _
      · subst h; exact b64char_isB64 _
      · subst h; exact b64char_isB64 _
      · exact base64Encode_mem rest c h

theorem byteLenFuel_eq : ∀ fuel n : Nat, n ≤ fuel →
    byteLenFuel fuel n = if n = 0 then 0 else Nat.log 256 n + 1
  | 0, n, h => by
      have hn : n = 0 := Nat.le_zero.mp h
      subst hn
      simp [byteLenFuel]
  | fuel + 1, n, h => by
      simp only [byteLenFuel]
      by_cases h0 : n = 0
      · simp [h0]
      · have hdiv : n / 256 ≤ fuel := by
          have := Nat.div_lt_self (Nat.pos_of_ne_zero h0) (by omega : 1 < 256)
          omega
        rw [if_neg h0, if_neg h0, byteLenFuel_eq fuel (n / 256) hdiv]
        by_cases h1 : n / 256 = 0
        · have hlt : n < 256 := by omega
          rw [if_pos h1, Nat.log_of_lt hlt]
        · have h256 : 256 ≤ n := by omega
          have hpos := Nat.log_pos (by omega : 1 < 256) h256
          have hdb := Nat.log_div_base 256 n
          rw [if_neg h1]
          omega

theorem rsaByteLen_of_2048 {n : Nat} (h1 : 2 ^ 2047 ≤ n) (h2 : n < 2 ^ 2048) :
    rsaByteLen n = 256 := by
  have hb : (256 : Nat) = 2 ^ 8 := by norm_num
  have h2040 : (256 : Nat) ^ 255 = 2 ^ 2040 := by rw [hb, ← pow_mul]
  have h2048e : (256 : Nat) ^ 256 = 2 ^ 2048 := by
    nth_rewrite 1 [hb]
    rw [← pow_mul]
  have h0 : n ≠ 0 := by
    have : 0 < 2 ^ 2047 := pow_pos (by norm_num) 2047
    omega
  have hlog : Nat.log 256 n = 255 :=
    Nat.log_eq_of_pow_le_of_lt_pow
      (by rw [h2040]
          exact le_trans (Nat.pow_le_pow_right (by norm_num) (by norm_num)) h1)
      (by rw [h2048e]; exact h2)
  rw [rsaByteLen, byteLenFuel_eq n n le_rfl, if_neg h0, hlog]

theorem testModulus_ge : 2 ^ 2047 ≤ testModulus :=
  Nat.le_add_right _ _

theorem testModulus_lt : testModulus < 2 ^ 2048 := by
  unfold testModulus
  have h1 : (2047 : Nat) < 2 ^ 2047 :=
    lt_of_lt_of_le (by norm_num : (2047 : Nat) < 2 ^ 11)
      (Nat.pow_le_pow_right (by norm_num) (by norm_num))
  calc 2 ^ 2047 + 2047 < 2 ^ 2047 + 2 ^ 2047 := Nat.add_lt_add_left h1 _
    _ = 2 * 2 ^ 2047 := (two_mul _).symm
    _ = 2 ^ 2048 := (pow_succ' 2 2047).symm

theorem encrypt_eq_ok (readFile : String → Option String)
    (importKey : String → Option (Nat × Nat)) (path txt : String) (n e : Nat)
    (ps : List Nat) (card : CardFields)
    (hread : readFile path = some txt)
    (himp : importKey (normalizeKeyText txt) = some (n, e))
    (hk : rsaByteLen n = 256)
    (hfit : (utf8Bytes (jsonStringifyCard card)).length + 11 ≤ 256) :
    CardEncryptor.encrypt readFile importKey ps ⟨path⟩ card =
      .ok (String.mk (base64Encode (natToBytesBE 256
        (bytesToNatBE (0 :: 2 :: ps ++ 0 :: utf8Bytes (jsonStringifyCard card)) ^ e
          % n)))) := by
  simp [CardEncryptor.encrypt, hread, himp, publicEncryptPkcs1, pkcs1v15Pad, hk, hfit]

/-- **C9.** The `CardEncryptor` constructor checks `fs.existsSync` before
anything else: a non-existent key path throws the key-not-found error at
construction time, and an existing path yields an instance storing the path. -/
theorem c9_constructor (fsExists : String → Bool) (path : String) :
    (fsExists path = false →
      CardEncryptor.create fsExists path = .error (.keyNotFound path)) ∧
    (fsExists path = true →
      CardEncryptor.create fsExists path = .ok ⟨path⟩) := by
  constructor <;> intro h <;> simp [CardEncryptor.create, h]

/-- Witness for `c9_constructor` on a concrete one-file filesystem. -/
theorem c9_constructor_witness :
    CardEncryptor.create (fun p => p == "key.pem") "missing.pem" =
        .error (.keyNotFound "missing.pem") ∧
    CardEncryptor.create (fun p => p == "key.pem") "key.pem" = .ok ⟨"key.pem"⟩ :=
  ⟨(c9_constructor (fun p => p == "key.pem") "missing.pem").1 (by decide),
   (c9_constructor (fun p => p == "key.pem") "key.pem").2 (by decide)⟩

/-- **C1.** For a well-formed card record, a 2048-bit modulus, and a payload
that the padding admits, `CardEncryptor.encrypt` returns exactly the standard
base64 encoding of the PKCS#1 v1.5 RSA encryption of the UTF-8 JSON
serialization of the record: a non-empty string of length 344 over the
alphabet `[A-Za-z0-9+/=]`. -/
theorem c1_encrypt_shape (readFile : String → Option String)
    (importKey : String → Option (Nat × Nat)) (path txt : String) (n e : Nat)
    (ps : List Nat) (card : CardFields)
    (hwf : card.cvv.getD "" ≠ "" ∧ card.pin.getD "" ≠ "" ∧
      card.expiryDate.getD "" ≠ "" ∧ card.pan.getD "" ≠ "")
    (hread : readFile path = some txt)
    (himp : importKey (normalizeKeyText txt) = some (n, e))
    (hn1 : 2 ^ 2047 ≤ n) (hn2 : n < 2 ^ 2048)
    (hps : ps.length + (utf8Bytes (jsonStringifyCard card)).length + 3 = 256)
    (hfit : (utf8Bytes (jsonStringifyCard card)).length + 11 ≤ 256) :
    ∃ s : String,
      CardEncryptor.encrypt readFile importKey ps ⟨path⟩ card = .ok s ∧
      s.data = base64Encode (natToBytesBE 256
        (bytesToNatBE (0 :: 2 :: ps ++ 0 :: utf8Bytes (jsonStringifyCard card)) ^ e
          % n)) ∧
      s.length = 344 ∧ s ≠ "" ∧ ∀ c ∈ s.data, isB64Char c = true := by
  have hlen : (String.mk (base64Encode (natToBytesBE 256
      (bytesToNatBE (0 :: 2 :: ps ++ 0 :: utf8Bytes (jsonStringifyCard card)) ^ e
        % n)))).length = 344 := by
    rw [string_mk_length, base64Encode_length, natToBytesBE_length]
  refine ⟨String.mk (base64Encode (natToBytesBE 256
      (bytesToNatBE (0 :: 2 :: ps ++ 0 :: utf8Bytes (jsonStringifyCard card)) ^ e
        % n))),
    encrypt_eq_ok readFile importKey path txt n e ps card hread himp
      (rsaByteLen_of_2048 hn1 hn2) hfit, ?_, hlen, ?_, ?_⟩
  · with_reducible rfl
  · intro hcontra
    rw [hcontra] at hlen
    exact absurd hlen (by decide)
  · intro c hc
    exact base64Encode_mem _ c (by with_reducible exact hc)

/-- Witness for `c1_encrypt_shape` on the spec's end-to-end card record and a
concrete 2048-bit modulus. -/
theorem c1_encrypt_shape_witness :
    ∃ s : String,
      CardEncryptor.encrypt (fun _ => some testPem)
          (fun _ => some (testModulus, 3)) (padFor testCard)
          ⟨"/key/public_key.pem"⟩ testCard = .ok s ∧
      s.data = base64Encode (natToBytesBE 256
        (bytesToNatBE (0 :: 2 :: padFor testCard ++
          0 :: utf8Bytes (jsonStringifyCard testCard)) ^ 3 % testModulus)) ∧
      s.length = 344 ∧ s ≠ "" ∧ ∀ c ∈ s.data, isB64Char c = true :=
  c1_encrypt_shape (fun _ => some testPem) (fun _ => some (testModulus, 3))
    "/key/public_key.pem" testPem testModulus 3 (padFor testCard) testCard
    (by refine ⟨?_, ?_, ?_, ?_⟩ <;> decide) rfl rfl
    testModulus_ge testModulus_lt
    (by decide) (by decide)

/-- **C2 (counterexample).** `CardEncryptor.encrypt` does *not* fail fast on a
card record with an empty `cvv` and an absent `pin`: it returns a ciphertext
of the partial payload. -/
theorem c2_counterexample :
    emptyFieldCard.cvv = some "" ∧ emptyFieldCard.pin = none ∧
    exceptIsOk (CardEncryptor.encrypt (fun _ => some testPem)
        (fun _ => some (testModulus, 3)) (padFor emptyFieldCard)
        ⟨"/key/public_key.pem"⟩ emptyFieldCard) = true :=
  ⟨rfl, rfl, by decide⟩

/-- **C2 (amended).** `CardEncryptor.encrypt` performs no presence or
emptiness validation: a card record with an absent `pin` or an empty `cvv`
is serialized (absent fields omitted by `JSON.stringify`) and encrypted like
any other, returning a ciphertext of the partial payload. -/
theorem c2_amended (readFile : String → Option String)
    (importKey : String → Option (Nat × Nat)) (path txt : String) (n e : Nat)
    (ps : List Nat) (card : CardFields)
    (hmissing : card.pin = none ∨ card.cvv = some "")
    (hread : readFile path = some txt)
    (himp : importKey (normalizeKeyText txt) = some (n, e))
    (hn1 : 2 ^ 2047 ≤ n) (hn2 : n < 2 ^ 2048)
    (hfit : (utf8Bytes (jsonStringifyCard card)).length + 11 ≤ 256) :
    ∃ s : String,
      CardEncryptor.encrypt readFile importKey ps ⟨path⟩ card = .ok s :=
  ⟨_, encrypt_eq_ok readFile importKey path txt n e ps card hread himp
    (rsaByteLen_of_2048 hn1 hn2) hfit⟩

/-- Witness for `c2_amended` at the empty-`cvv`, absent-`pin` record. -/
theorem c2_amended_witness :
    ∃ s : String,
      CardEncryptor.encrypt (fun _ => some testPem)
          (fun _ => some (testModulus, 3)) (padFor emptyFieldCard)
          ⟨"/key/public_key.pem"⟩ emptyFieldCard = .ok s :=
  c2_amended (fun _ => some testPem) (fun _ => some (testModulus, 3))
    "/key/public_key.pem" testPem testModulus 3 (padFor emptyFieldCard)
    emptyFieldCard (Or.inl rfl) rfl rfl
    testModulus_ge testModulus_lt (by decide)

/-- **C4 (counterexample).** The claim's threshold of 190 bytes for a
2048-bit key is wrong: a card record whose JSON serialization is over 190
bytes (here 200) still encrypts successfully, because the PKCS#1 v1.5 limit
is `k - 11 = 245` bytes for a 256-octet modulus. -/
theorem c4_counterexample :
    190 < (utf8Bytes (jsonStringifyCard midSizeCard)).length ∧
    (utf8Bytes (jsonStringifyCard midSizeCard)).length ≤ 245 ∧
    exceptIsOk (CardEncryptor.encrypt (fun _ => some testPem)
        (fun _ => some (testModulus, 3)) (padFor midSizeCard)
        ⟨"/key/public_key.pem"⟩ midSizeCard) = true :=
  ⟨by decide, by decide, by decide⟩

/-- **C4 (amended).** With the threshold corrected to `keysize/8 − 11 = 245`
bytes for a 2048-bit key: a card record whose JSON serialization exceeds 245
bytes makes `CardEncryptor.encrypt` fail with the encryption error — it never
returns a truncated ciphertext. -/
theorem c4_amended (readFile : String → Option String)
    (importKey : String → Option (Nat × Nat)) (path txt : String) (n e : Nat)
    (ps : List Nat) (card : CardFields)
    (hread : readFile path = some txt)
    (himp : importKey (normalizeKeyText txt) = some (n, e))
    (hn1 : 2 ^ 2047 ≤ n) (hn2 : n < 2 ^ 2048)
    (hlong : 245 < (utf8Bytes (jsonStringifyCard card)).length) :
    CardEncryptor.encrypt readFile importKey ps ⟨path⟩ card =
      .error .encryptionError := by
  have hk := rsaByteLen_of_2048 hn1 hn2
  have hno : ¬ ((utf8Bytes (jsonStringifyCard card)).length + 11 ≤ 256) := by omega
  simp [CardEncryptor.encrypt, hread, himp, publicEncryptPkcs1, pkcs1v15Pad, hk, hno]

/-- Witness for `c4_amended` at a card whose JSON serialization is over 245
bytes. -/
theorem c4_amended_witness :
    CardEncryptor.encrypt (fun _ => some testPem)
        (fun _ => some (testModulus, 3)) [] ⟨"/key/public_key.pem"⟩ oversizeCard =
      .error .encryptionError :=
  c4_amended (fun _ => some testPem) (fun _ => some (testModulus, 3))
    "/key/public_key.pem" testPem testModulus 3 [] oversizeCard rfl rfl
    testModulus_ge testModulus_lt (by decide)

theorem c3_amended_witness :
    normalizeKeyText
        (String.mk "-----BEGIN PUBLIC KEY-----\nTUlJ\n-----END PUBLIC KEY-----".data) =
      String.mk "-----BEGIN PUBLIC KEY-----\nTUlJ\n-----END PUBLIC KEY-----".data ∧
    replaceFirst "RSA".data []
        ("-----BEGIN RSA PUBLIC KEY-----".data ++ "\nX".data) =
      "-----BEGIN  PUBLIC KEY-----".data ++ "\nX".data :=
  ⟨(c3_amended "-----BEGIN PUBLIC KEY-----\nTUlJ\n-----END PUBLIC KEY-----".data
      "\nX".data (by decide) (by decide)).1,
   (c3_amended "-----BEGIN PUBLIC KEY-----\nTUlJ\n-----END PUBLIC KEY-----".data
      "\nX".data (by decide) (by decide)).2⟩

end ErcaspaySdk

namespace ErcaspaySdk

/-- **C7 (counterexample).** The second Device implementation does *not*
strip the IPv6-mapped-IPv4 marker: on a request with IP
`::ffff:203.0.113.5`, the resulting ipAddress keeps the marker instead of
resolving to `203.0.113.5`. -/
theorem c7_counterexample :
    (DeviceV2.fromRequest mappedIpRequest).map Device.ipAddress =
      .ok "::ffff:203.0.113.5" ∧
    ("::ffff:203.0.113.5" : String) ≠ "203.0.113.5" :=
  ⟨rfl, by decide⟩

/-- **C7 (amended).** Only the first Device implementation strips the
IPv6-mapped-IPv4 marker from the resolved IP; the second implementation
passes a truthy request IP through unchanged. -/
theorem c7_amended (request : JsRequest)
    (h1 : (resolvedIpV1 request).take 7 = "::ffff:")
    (h2 : jsTruthy request.ip = true) :
    (Device.fromRequest request).ipAddress = (resolvedIpV1 request).drop 7 ∧
    (DeviceV2.fromRequest request).map Device.ipAddress =
      .ok (request.ip.getD "") := by
  constructor
  · simp [Device.fromRequest, h1]
  · simp [DeviceV2.fromRequest, h2, Except.map]

/-- Witness for `c7_amended` at the marker-carrying request. -/
theorem c7_amended_witness :
    (Device.fromRequest mappedIpRequest).ipAddress =
      (resolvedIpV1 mappedIpRequest).drop 7 ∧
    (DeviceV2.fromRequest mappedIpRequest).map Device.ipAddress =
      .ok (mappedIpRequest.ip.getD "") :=
  c7_amended mappedIpRequest (by decide) (by decide)

/-- **C8 (code evaluation).** Even on a request whose user-agent resolves to
a real string, the second Device implementation returns a record whose
browser field is undefined — the factory passes the value under the key
userAgent while the constructor destructures browser.  The first
implementation does satisfy the claimed fallbacks on an empty request. -/
theorem c8_browser_undefined :
    jsOrStr (browserRequest.headers "user-agent") "Unknown" = "Mozilla/5.0" ∧
    (DeviceV2.fromRequest browserRequest).map Device.browser = .ok none ∧
    (Device.fromRequest emptyRequest).browser = some "Unknown" ∧
    (Device.fromRequest emptyRequest).ipAddress = "127.0.0.1" :=
  ⟨rfl, rfl, rfl, rfl⟩

/-- **C5 (counterexample).** The part_000 dispatch implementation rethrows a
non-2xx response as a plain Error: here the transport reports status 404
with a body, yet the raised error carries no status code and no response
body — only the message. -/
theorem c5_counterexample :
    (makeRequestV0 (fun _ _ _ => .errorResponse 404 ⟨some "Not found", "raw"⟩)
        "/api/v1/payment/initiate" (some "POST") "").1 =
      .error ⟨"Not found", none, none⟩ :=
  rfl

/-- **C5 (amended).** For the part_001 dispatch implementation the claim
holds: a non-2xx response yields an error carrying the response status and
raw body, with the server errorMessage when truthy and a generic message
naming the path otherwise; a transport failure with no response yields an
error with a synthesized 500 status and no response body. -/
theorem c5_amended (transport : String → String → String → HttpOutcome)
    (url : String) (method : Option String) (data : String)
    (status : Nat) (body : RespBody) (msg : String)
    (hm : jsTruthy method = true) :
    (transport url ((method.getD "").toLower) data = .errorResponse status body →
      (makeRequestV1 transport url method data).1 =
        .error ⟨jsOrStr body.errorMessage
          ("An error occurred while calling the Ercaspay API on path: " ++ url),
          some status, some body⟩) ∧
    (transport url ((method.getD "").toLower) data = .transportError msg →
      (makeRequestV1 transport url method data).1 =
        .error ⟨jsOrStr (some msg)
          ("An unexpected error occurred while making the API request on path: "
            ++ url),
          some 500, none⟩) := by
  constructor <;> intro h <;> simp [makeRequestV1, hm, h]

/-- Witness for `c5_amended` at a concrete 503 response with no structured
message. -/
theorem c5_amended_witness :
    ((fun (_ _ _ : String) => HttpOutcome.errorResponse 503 ⟨none, "busy"⟩)
        "/api/v1/payment/initiate" (((some "POST" : Option String).getD "").toLower) ""
        = .errorResponse 503 ⟨none, "busy"⟩ →
      (makeRequestV1 (fun _ _ _ => .errorResponse 503 ⟨none, "busy"⟩)
          "/api/v1/payment/initiate" (some "POST") "").1 =
        .error ⟨jsOrStr (RespBody.mk none "busy").errorMessage
          ("An error occurred while calling the Ercaspay API on path: "
            ++ "/api/v1/payment/initiate"),
          some 503, some ⟨none, "busy"⟩⟩) ∧
    ((fun (_ _ _ : String) => HttpOutcome.errorResponse 503 ⟨none, "busy"⟩)
        "/api/v1/payment/initiate" (((some "POST" : Option String).getD "").toLower) ""
        = .transportError "socket hang up" →
      (makeRequestV1 (fun _ _ _ => .errorResponse 503 ⟨none, "busy"⟩)
          "/api/v1/payment/initiate" (some "POST") "").1 =
        .error ⟨jsOrStr (some "socket hang up")
          ("An unexpected error occurred while making the API request on path: "
            ++ "/api/v1/payment/initiate"),
          some 500, none⟩) :=
  c5_amended (fun _ _ _ => .errorResponse 503 ⟨none, "busy"⟩)
    "/api/v1/payment/initiate" (some "POST") "" 503 ⟨none, "busy"⟩
    "socket hang up" (by decide)

/-- **C6.** Both dispatch implementations fail on a falsy verb with the
Method-cannot-be-empty error, and the HTTP client is never invoked on that
path (the false flag; the result is also independent of the transport). -/
theorem c6_empty_method (t0 t1 : String → String → String → HttpOutcome)
    (url data : String) (method : Option String)
    (h : jsTruthy method = false) :
    makeRequestV0 t0 url method data = (.error methodEmptyError, false) ∧
    makeRequestV1 t1 url method data = (.error methodEmptyError, false) := by
  constructor <;> simp [makeRequestV0, makeRequestV1, h]

/-- Witness for `c6_empty_method` with an undefined method and a transport
that would succeed if it were ever called. -/
theorem c6_empty_method_witness :
    makeRequestV0 (fun _ _ _ => .success "ok") "/api/v1/payment/initiate" none ""
        = (.error methodEmptyError, false) ∧
    makeRequestV1 (fun _ _ _ => .success "ok") "/api/v1/payment/initiate" none ""
        = (.error methodEmptyError, false) :=
  c6_empty_method (fun _ _ _ => .success "ok") (fun _ _ _ => .success "ok")
    "/api/v1/payment/initiate" "" none rfl

/-- **C10.** Constructing the part_000 client with verifySsl false raises a
ReferenceError for the never-imported https identifier, so no instance with
TLS verification disabled can exist; with verifySsl true or omitted the
construction succeeds with the default agent. -/
theorem c10_verify_ssl (baseURL secretKey : String) :
    ercaspayNewV0 baseURL secretKey (some false) = .error (.referenceError "https") ∧
    (∀ v : Option Bool, v ≠ some false →
      ercaspayNewV0 baseURL secretKey v =
        .ok ⟨baseURL, secretKey, true,
          ⟨baseURL, "Bearer " ++ secretKey, "application/json", "application/json",
            none⟩⟩) := by
  constructor
  · simp [ercaspayNewV0, initializeClientV0, moduleScopeV0]
  · intro v hv
    cases v with
    | none => simp [ercaspayNewV0, initializeClientV0]
    | some b =>
        cases b with
        | false => exact absurd rfl hv
        | true => simp [ercaspayNewV0, initializeClientV0]

/-- Witness for `c10_verify_ssl` at a concrete configuration. -/
theorem c10_verify_ssl_witness :
    ercaspayNewV0 "https-base" "sk" (some false) = .error (.referenceError "https") ∧
    ercaspayNewV0 "https-base" "sk" none =
      .ok ⟨"https-base", "sk", true,
        ⟨"https-base", "Bearer " ++ "sk", "application/json", "application/json",
          none⟩⟩ :=
  ⟨(c10_verify_ssl "https-base" "sk").1,
   (c10_verify_ssl "https-base" "sk").2 none (by decide)⟩

end ErcaspaySdk
